import Mathlib

/-!
Shallow embedding of `mcp_server.py` (Sargoth Mermaid MCP server).

The embedding keeps the Python structure: handlers are functions from an
argument mapping and an HTTP oracle (the stubbed rendering service) to an
`Except PyErr` result — `Except.error` models a raised Python exception
escaping the function — paired with the list of outbound HTTP requests the
handler issued.  Pure string heuristics are modelled over `List Char` with
Python semantics (`str.strip`, `str.splitlines`, `str.startswith`,
substring `in`).
-/

/-- A Python value appearing in tool arguments or JSON request bodies:
the server only ever passes strings and integers. -/
inductive PyVal where
  | vstr : String → PyVal
  | vint : Int → PyVal
deriving DecidableEq

/-- Python `str()` of an argument value, as used in f-string interpolation. -/
def PyVal.pystr : PyVal → String
  | .vstr s => s
  | .vint n => toString n

/-- Python truthiness (`if not diagram_type:`): empty string and 0 are falsy. -/
def PyVal.truthy : PyVal → Bool
  | .vstr s => !s.isEmpty
  | .vint n => n != 0

/-- A raised Python exception, as caught by `except Exception as e`. -/
inductive PyErr where
  | keyError : String → PyErr
  | valueError : String → PyErr
  | attributeError : String → PyErr
  | jsonError : String → PyErr
  | httpError : String → PyErr
deriving DecidableEq

/-- Python `str(e)`.  `str(KeyError('code'))` is `"'code'"` (repr quotes). -/
def PyErr.message : PyErr → String
  | .keyError k => "'" ++ k ++ "'"
  | .valueError m => m
  | .attributeError m => m
  | .jsonError m => m
  | .httpError m => m

/-- `types.TextContent(type="text", text=...)`. -/
structure TextContent where
  kind : String
  text : String
deriving DecidableEq

/-! ## Python string primitives over `List Char` -/

/-- Python `s.startswith(pat)` on exploded strings. -/
def listStartsWith : List Char → List Char → Bool
  | _, [] => true
  | [], _ :: _ => false
  | c :: s, p :: ps => c == p && listStartsWith s ps

/-- Python substring test `needle in hay`. -/
def pyIn (needle : List Char) : List Char → Bool
  | [] => needle.isEmpty
  | c :: rest => listStartsWith (c :: rest) needle || pyIn needle rest

/-- Python `needle in hay` on `String`. -/
def strContains (needle hay : String) : Bool :=
  pyIn needle.data hay.data

/-- ASCII whitespace stripped by Python `str.strip()`. -/
def pyIsSpace (c : Char) : Bool :=
  c == ' ' || c == '\t' || c == '\n' || c == '\r' || c == '\x0b' || c == '\x0c'

/-- Python `str.strip()`. -/
def pyStrip (s : List Char) : List Char :=
  ((s.dropWhile pyIsSpace).reverse.dropWhile pyIsSpace).reverse

/-- Line boundaries recognised by Python `str.splitlines()`. -/
def lineBreakChar (c : Char) : Bool :=
  c == '\n' || c == '\r' || c == '\x0b' || c == '\x0c' || c == '\x1c' ||
  c == '\x1d' || c == '\x1e' || c == '\x85' || c == '\u2028' || c == '\u2029'

/-- Worker for `pySplitlines`: `acc` holds the current line reversed. -/
def pySplitlinesAux : List Char → List Char → List (List Char)
  | acc, [] => [acc.reverse]
  | acc, '\r' :: '\n' :: rest =>
      acc.reverse :: (match rest with | [] => [] | _ :: _ => pySplitlinesAux [] rest)
  | acc, c :: rest =>
      if lineBreakChar c then
        acc.reverse :: (match rest with | [] => [] | _ :: _ => pySplitlinesAux [] rest)
      else pySplitlinesAux (c :: acc) rest

/-- Python `str.splitlines()`: `"" → []`, a trailing newline adds no line. -/
def pySplitlines : List Char → List (List Char)
  | [] => []
  | c :: rest => pySplitlinesAux [] (c :: rest)

/-! ## Diagram heuristics (`_detect_diagram_type`, `_estimate_complexity`,
`_suggest_improvements`) -/

/-- `MermaidMCPServer._detect_diagram_type`: lower-case, strip, then the
fixed chain of prefix tests from the source. -/
def _detect_diagram_type (code : String) : String :=
  let code_lower := pyStrip (code.data.map Char.toLower)
  if listStartsWith code_lower "sequencediagram".data then "sequence"
  else if listStartsWith code_lower "classdiagram".data then "class"
  else if listStartsWith code_lower "statediagram".data then "state"
  else if listStartsWith code_lower "gantt".data then "gantt"
  else if listStartsWith code_lower "pie".data then "pie"
  else if listStartsWith code_lower "journey".data then "journey"
  else if listStartsWith code_lower "gitgraph".data then "git"
  else if listStartsWith code_lower "graph".data then "flowchart"
  else if listStartsWith code_lower "flowchart".data then "flowchart"
  else "unknown"

/-- `MermaidMCPServer._estimate_complexity`. -/
def _estimate_complexity (code : String) : String :=
  let lines := (pySplitlines code.data).length
  let chars := code.length
  if lines > 20 ∨ chars > 1000 then "High"
  else if lines > 10 ∨ chars > 500 then "Medium"
  else "Low"

/-- The spec's prefix table for `detectDiagramType`, in its stated priority
order (spec-side refinement definition, to be compared with
`_detect_diagram_type`). -/
def specPrefixPairs : List (String × String) :=
  [("sequencediagram", "sequence"), ("classdiagram", "class"),
   ("statediagram", "state"), ("gantt", "gantt"), ("pie", "pie"),
   ("journey", "journey"), ("gitgraph", "git"), ("graph", "flowchart"),
   ("flowchart", "flowchart")]

/-- First-match lookup in a prefix table. -/
def tableMatch (cl : List Char) : List (String × String) → String
  | [] => "unknown"
  | (p, r) :: rest => if listStartsWith cl p.data then r else tableMatch cl rest

/-- `detectDiagramType` as the spec words it: lower-case and trim, then match
the fixed priority table, otherwise `unknown`. -/
def detectSpecTable (code : String) : String :=
  tableMatch (pyStrip (code.data.map Char.toLower)) specPrefixPairs

/-- The declaration keywords of `_suggest_improvements` rule 2
(`line.strip().startswith((...))`, case-sensitive). -/
def declKeywords : List String :=
  ["graph", "flowchart", "sequenceDiagram", "classDiagram", "stateDiagram",
   "gantt", "pie", "journey", "gitGraph"]

/-- `diagram_type = arguments.get("diagram_type")` followed by
`if not diagram_type: diagram_type = self._detect_diagram_type(code)`. -/
def resolveDtype (code : String) : Option PyVal → PyVal
  | none => .vstr (_detect_diagram_type code)
  | some v => if v.truthy then v else .vstr (_detect_diagram_type code)

/-- Python `diagram_type == "flowchart"`-style comparison of a PyVal with a
string literal. -/
def PyVal.eqStr : PyVal → String → Bool
  | .vstr s, t => s == t
  | .vint _, _ => false

/-- The suggestion rules 1-7 of `_suggest_improvements`, in source order;
each rule contributes zero or one line. -/
def collectSuggestions (code : String) (dtype : PyVal) : List String :=
  let lines := pySplitlines (pyStrip code.data)
  let s1 : List String :=
    if lines.isEmpty then
      ["- Code is empty. Add a diagram type declaration."]
    else if !(lines.any fun line =>
        declKeywords.any fun kw => listStartsWith (pyStrip line) kw.data) then
      ["- Missing diagram type declaration. Start with 'graph TD', 'sequenceDiagram', etc."]
    else []
  let s2 : List String :=
    if strContains "graph" code && !strContains "TD" code &&
       !strContains "LR" code && !strContains "TB" code &&
       !strContains "RL" code then
      ["- Consider specifying graph direction: TD (top-down), LR (left-right), etc."]
    else []
  let s3 : List String :=
    if lines.length > 5 && !strContains "class" code && !strContains "style" code then
      ["- Consider adding styling with classes or style definitions for better visual appeal"]
    else []
  let s4 : List String :=
    if _estimate_complexity code == "High" then
      ["- High complexity detected. Consider breaking into multiple smaller diagrams"]
    else []
  let s5 : List String :=
    if dtype.eqStr "flowchart" then
      (if !strContains "-->" code && !strContains "---" code then
        ["- Use arrows (-->) to connect flowchart nodes"]
      else []) ++
      (if !strContains "\x7b" code && !strContains "[" code && !strContains "(" code then
        ["- Use different node shapes: [] for rectangles, \x7b\x7d for diamonds, () for circles"]
      else [])
    else if dtype.eqStr "sequence" then
      (if !strContains "participant" code then
        ["- Define participants explicitly for cleaner sequence diagrams"]
      else []) ++
      (if !strContains "note" code then
        ["- Consider adding notes to clarify important interactions"]
      else [])
    else []
  s1 ++ s2 ++ s3 ++ s4 ++ s5

/-- Rule 8: `if not suggestions: suggestions.append(fallback)`. -/
def withFallback (s : List String) : List String :=
  if s.isEmpty then
    ["- Code looks good! Consider experimenting with themes for different visual styles"]
  else s

/-- The full suggestion list of `_suggest_improvements` for a given code
string and resolved diagram type. -/
def _suggest_list (code : String) (dtype : PyVal) : List String :=
  withFallback (collectSuggestions code dtype)

/-! ## Claim theorems over the heuristics -/

/-- C4: `detectDiagramType` is total and deterministic: for every input it
returns exactly one of the nine type names, and it agrees with the spec's
fixed prefix table checked in priority order. -/
theorem detect_diagram_type_total_table (s : String) :
    _detect_diagram_type s ∈
      ["sequence", "class", "state", "gantt", "pie", "journey", "git",
       "flowchart", "unknown"] ∧
    _detect_diagram_type s = detectSpecTable s := by
  refine ⟨?_, rfl⟩
  simp only [_detect_diagram_type]
  repeat' split
  all_goals decide

/-- C5: `estimateComplexity` returns High iff L>20 or C>1000, else Medium iff
L>10 or C>500, else Low, where L is the splitlines count and C the character
count; in particular an input with exactly 20 lines and at most 1000
characters is never High. -/
theorem estimate_complexity_thresholds (s : String) :
    ((_estimate_complexity s = "High") ↔
      ((pySplitlines s.data).length > 20 ∨ s.length > 1000)) ∧
    ((_estimate_complexity s = "Medium") ↔
      (¬((pySplitlines s.data).length > 20 ∨ s.length > 1000) ∧
       ((pySplitlines s.data).length > 10 ∨ s.length > 500))) ∧
    ((_estimate_complexity s = "Low") ↔
      (¬((pySplitlines s.data).length > 20 ∨ s.length > 1000) ∧
       ¬((pySplitlines s.data).length > 10 ∨ s.length > 500))) ∧
    ((pySplitlines s.data).length = 20 → s.length ≤ 1000 →
      _estimate_complexity s ≠ "High") := by
  simp only [_estimate_complexity]
  by_cases h1 : (pySplitlines s.data).length > 20 ∨ s.length > 1000
  · simp only [if_pos h1]
    refine ⟨by simp [h1], by simp [h1], by simp [h1], ?_⟩
    simp [h1]
    omega
  · simp only [if_neg h1]
    by_cases h2 : (pySplitlines s.data).length > 10 ∨ s.length > 500
    · simp only [if_pos h2]
      refine ⟨?_, ?_, ?_, ?_⟩ <;> simp [h1, h2]
    · simp only [if_neg h2]
      refine ⟨?_, ?_, ?_, ?_⟩ <;> simp [h1, h2]

/-- Witness for C5 at a concrete 20-line, 39-character input: not High. -/
theorem estimate_complexity_thresholds_witness :
    _estimate_complexity "a\na\na\na\na\na\na\na\na\na\na\na\na\na\na\na\na\na\na\na" ≠ "High" :=
  (estimate_complexity_thresholds
      "a\na\na\na\na\na\na\na\na\na\na\na\na\na\na\na\na\na\na\na").2.2.2
    (by decide) (by decide)

/-- C6: `suggestImprovements` always returns a non-empty list (rule 8's
fallback), and on the empty string the result contains the empty-code
suggestion. -/
theorem suggest_improvements_nonempty :
    (∀ (code : String) (dtype : PyVal), _suggest_list code dtype ≠ []) ∧
    "- Code is empty. Add a diagram type declaration." ∈
      _suggest_list "" (resolveDtype "" none) := by
  constructor
  · intro code dtype
    unfold _suggest_list withFallback
    split
    · simp
    · simp_all
  · decide

/-- Witness for C6: the always-satisfiable non-emptiness at a concrete
input. -/
theorem suggest_improvements_nonempty_witness :
    _suggest_list "pie\n" (.vstr "pie") ≠ [] :=
  suggest_improvements_nonempty.1 "pie\n" (.vstr "pie")

/-- C10: the declaration-keyword check of `suggestImprovements` is
case-sensitive while type detection lower-cases: on "Graph TD\nA --> B",
`detectDiagramType` returns flowchart, yet `suggestImprovements` with no
diagram_type supplied emits the missing-declaration suggestion. -/
theorem suggest_declaration_check_case_sensitive :
    _detect_diagram_type "Graph TD\nA --> B" = "flowchart" ∧
    "- Missing diagram type declaration. Start with 'graph TD', 'sequenceDiagram', etc." ∈
      _suggest_list "Graph TD\nA --> B"
        (resolveDtype "Graph TD\nA --> B" none) := by
  decide

/-! ## Base64 (`base64.b64encode` / `base64.b64decode`) -/

/-- The standard base64 alphabet as an indexing function. -/
def b64c (n : Nat) : Char :=
  if n < 26 then Char.ofNat (65 + n)
  else if n < 52 then Char.ofNat (97 + (n - 26))
  else if n < 62 then Char.ofNat (48 + (n - 52))
  else if n = 62 then '+' else '/'

/-- Inverse of the base64 alphabet. -/
def b64d (c : Char) : Nat :=
  if 'A' ≤ c ∧ c ≤ 'Z' then c.toNat - 65
  else if 'a' ≤ c ∧ c ≤ 'z' then c.toNat - 97 + 26
  else if '0' ≤ c ∧ c ≤ '9' then c.toNat - 48 + 52
  else if c = '+' then 62 else if c = '/' then 63 else 0

/-- `base64.b64encode` on a byte list: 3 bytes become 4 alphabet characters,
a 1- or 2-byte tail is padded with `=`. -/
def b64encode : List Nat → List Char
  | [] => []
  | [a] => [b64c (a / 4), b64c (a % 4 * 16), '=', '=']
  | [a, b] => [b64c (a / 4), b64c (a % 4 * 16 + b / 16), b64c (b % 16 * 4), '=']
  | a :: b :: c :: rest =>
      b64c (a / 4) :: b64c (a % 4 * 16 + b / 16) :: b64c (b % 16 * 4 + c / 64) ::
      b64c (c % 64) :: b64encode rest

/-- Standard base64 decoding of well-formed input (4-character groups,
padding only in the last group). -/
def b64decode : List Char → List Nat
  | c1 :: c2 :: c3 :: c4 :: rest =>
      if c3 = '=' then [b64d c1 * 4 + b64d c2 / 16]
      else if c4 = '=' then
        [b64d c1 * 4 + b64d c2 / 16, b64d c2 % 16 * 16 + b64d c3 / 4]
      else
        (b64d c1 * 4 + b64d c2 / 16) :: (b64d c2 % 16 * 16 + b64d c3 / 4) ::
        (b64d c3 % 4 * 64 + b64d c4) :: b64decode rest
  | _ => []

/-- Decoding inverts the alphabet on 6-bit values. -/
theorem b64d_b64c_fin : ∀ n : Fin 64, b64d (b64c n.val) = n.val := by decide

/-- The alphabet never produces the padding character. -/
theorem b64c_ne_pad_fin : ∀ n : Fin 64, b64c n.val ≠ '=' := by decide

theorem b64d_b64c {n : Nat} (h : n < 64) : b64d (b64c n) = n :=
  b64d_b64c_fin ⟨n, h⟩

theorem b64c_ne_pad {n : Nat} (h : n < 64) : b64c n ≠ '=' :=
  b64c_ne_pad_fin ⟨n, h⟩

/-- Splitting a packed value: quotient part. -/
theorem mixDiv {x y k : Nat} (h : 0 < k) (h' : y < k) : (x * k + y) / k = x := by
  rw [Nat.add_comm, Nat.mul_comm, Nat.add_mul_div_left _ _ h, Nat.div_eq_of_lt h',
    Nat.zero_add]

/-- Splitting a packed value: remainder part. -/
theorem mixMod {x y k : Nat} (h' : y < k) : (x * k + y) % k = y := by
  rw [Nat.add_comm, Nat.mul_comm, Nat.add_mul_mod_self_left, Nat.mod_eq_of_lt h']

theorem mulDivSelf {x k : Nat} (h : 0 < k) : x * k / k = x := by
  have := mixDiv (x := x) (y := 0) (k := k) h h
  simpa using this

/-- Base64 round-trip on byte lists. -/
theorem b64_roundtrip : ∀ bs : List Nat, (∀ b ∈ bs, b < 256) →
    b64decode (b64encode bs) = bs
  | [], _ => rfl
  | [a], h => by
      have ha : a < 256 := h a (by simp)
      have h1 : a / 4 < 64 := by omega
      have h2 : a % 4 * 16 < 64 := by omega
      simp only [b64encode, b64decode, if_pos rfl, if_true, b64d_b64c h1, b64d_b64c h2,
        List.cons.injEq, and_true]
      rw [mulDivSelf (by norm_num)]
      omega
  | [a, b], h => by
      have ha : a < 256 := h a (by simp)
      have hb : b < 256 := h b (by simp)
      have h1 : a / 4 < 64 := by omega
      have h2 : a % 4 * 16 + b / 16 < 64 := by omega
      have h3 : b % 16 * 4 < 64 := by omega
      simp only [b64encode, b64decode, if_neg (b64c_ne_pad h3), if_pos rfl, if_true,
        b64d_b64c h1, b64d_b64c h2, b64d_b64c h3, List.cons.injEq, and_true]
      rw [mixDiv (by norm_num) (show b / 16 < 16 by omega),
        mixMod (show b / 16 < 16 by omega), mulDivSelf (by norm_num)]
      constructor <;> omega
  | a :: b :: c :: rest, h => by
      have ha : a < 256 := h a (by simp)
      have hb : b < 256 := h b (by simp)
      have hc : c < 256 := h c (by simp)
      have h1 : a / 4 < 64 := by omega
      have h2 : a % 4 * 16 + b / 16 < 64 := by omega
      have h3 : b % 16 * 4 + c / 64 < 64 := by omega
      have h4 : c % 64 < 64 := by omega
      have ih := b64_roundtrip rest (fun x hx => h x (by simp [hx]))
      simp only [b64encode, b64decode, if_neg (b64c_ne_pad h3),
        if_neg (b64c_ne_pad h4), b64d_b64c h1, b64d_b64c h2, b64d_b64c h3,
        b64d_b64c h4, ih, List.cons.injEq, and_true]
      rw [mixDiv (by norm_num) (show b / 16 < 16 by omega),
        mixMod (show b / 16 < 16 by omega),
        mixDiv (by norm_num) (show c / 64 < 4 by omega),
        mixMod (show c / 64 < 4 by omega)]
      refine ⟨by omega, by omega, by omega⟩

/-! ## HTTP model: JSON bodies, responses, requests -/

mutual
/-- A parsed JSON value (the result of `response.json()`). -/
inductive Json where
  | jstr : String → Json
  | jnum : Int → Json
  | jobj : JsonFields → Json
/-- The fields of a JSON object. -/
inductive JsonFields where
  | nil : JsonFields
  | cons : String → Json → JsonFields → JsonFields
end

mutual
/-- JSON serialisation (`json.dumps` default separators): the body text a
stub server sends for a JSON body. -/
def Json.render : Json → String
  | .jstr s => "\"" ++ s ++ "\""
  | .jnum n => toString n
  | .jobj fs => "\x7b" ++ JsonFields.render fs ++ "\x7d"
def JsonFields.render : JsonFields → String
  | .nil => ""
  | .cons k v .nil => "\"" ++ k ++ "\": " ++ Json.render v
  | .cons k v rest => "\"" ++ k ++ "\": " ++ Json.render v ++ ", " ++ JsonFields.render rest
end

mutual
/-- Python `repr` of a parsed-JSON value (dict display uses single quotes). -/
def Json.pyRepr : Json → String
  | .jstr s => "'" ++ s ++ "'"
  | .jnum n => toString n
  | .jobj fs => "\x7b" ++ JsonFields.pyRepr fs ++ "\x7d"
def JsonFields.pyRepr : JsonFields → String
  | .nil => ""
  | .cons k v .nil => "'" ++ k ++ "': " ++ Json.pyRepr v
  | .cons k v rest => "'" ++ k ++ "': " ++ Json.pyRepr v ++ ", " ++ JsonFields.pyRepr rest
end

/-- Python `str()` of a parsed-JSON value, as used in f-string interpolation. -/
def Json.pyStr : Json → String
  | .jstr s => s
  | .jnum n => toString n
  | .jobj fs => "\x7b" ++ JsonFields.pyRepr fs ++ "\x7d"

/-- Python `dict.get(key)` over a JSON object's fields. -/
def JsonFields.lookup : JsonFields → String → Option Json
  | .nil, _ => none
  | .cons k v rest, key => if k == key then some v else rest.lookup key

/-- The body of a stubbed HTTP response: raw text, JSON (i.e.
`response.json()` would succeed), or raw bytes. -/
inductive Body where
  | textBody : String → Body
  | jsonBody : Json → Body
  | binaryBody : List Nat → Body

/-- A stubbed `httpx.Response`; `contentType` is
`response.headers.get("content-type", "")`. -/
structure HttpResponse where
  status_code : Nat
  contentType : String
  body : Body

/-- `response.text`. -/
def HttpResponse.text (r : HttpResponse) : String :=
  match r.body with
  | .textBody s => s
  | .jsonBody j => j.render
  | .binaryBody bs => String.mk (bs.map Char.ofNat)

/-- `response.content` as a byte list. -/
def HttpResponse.content (r : HttpResponse) : List Nat :=
  match r.body with
  | .textBody s => s.data.map Char.toNat
  | .jsonBody j => j.render.data.map Char.toNat
  | .binaryBody bs => bs

/-- `response.json()`: raises unless the body is JSON. -/
def HttpResponse.json (r : HttpResponse) : Except PyErr Json :=
  match r.body with
  | .jsonBody j => .ok j
  | _ => .error (.jsonError "Expecting value: line 1 column 1 (char 0)")

/-- One outbound `client.post(url, json=..., timeout=...)` call
(timeout in seconds). -/
structure RenderRequest where
  url : String
  payload : List (String × PyVal)
  timeout : Nat
deriving DecidableEq

/-- The stubbed transport: an `httpx.Response`, or a raised transport-level
exception (connection refused, timeout, DNS failure). -/
def Oracle : Type := RenderRequest → Except PyErr HttpResponse

/-- The tool-call argument mapping. -/
def Args : Type := List (String × PyVal)

/-- Python `arguments.get(k)` / `arguments[k]` lookup. -/
def Args.get (a : Args) (k : String) : Option PyVal := List.lookup k a

/-- The non-200 branch shared by the three rendering handlers:
`error_data = response.json()` if the content-type header starts with
`application/json`, else `{"error": response.text}`; then
`error_data.get('error', 'Unknown error')`.  A JSON parse failure or a
non-dict JSON value raises. -/
def errorMessage (resp : HttpResponse) : Except PyErr String :=
  if listStartsWith resp.contentType.data "application/json".data then
    match resp.json with
    | .error e => .error e
    | .ok (.jobj fs) =>
        .ok (match fs.lookup "error" with
             | some v => v.pyStr
             | none => "Unknown error")
    | .ok _ => .error (.attributeError "object has no attribute get")
  else
    .ok resp.text

/-! ## Handlers and dispatcher -/

/-- The success text of `_render_svg`. -/
def svgSuccessText (theme : PyVal) (svg_content : String) : String :=
  "✅ SVG diagram generated successfully! (" ++ toString svg_content.length ++
  " characters)\n\n" ++ "Theme: " ++ theme.pystr ++ "\n" ++
  "The SVG can be saved to a file or embedded directly in HTML.\n\n" ++
  "SVG Content:\n```svg\n" ++ svg_content ++ "\n```"

/-- `f"{len(png_data) / 1024:.1f}"`: the quotient is dyadic, so the Python
float format is exact round-half-even on tenths. -/
def pngSizeKb (n : Nat) : String :=
  let t := n * 10
  let q := t / 1024
  let r := t % 1024
  let rounded :=
    if 512 < r then q + 1 else if r < 512 then q
    else if q % 2 = 0 then q else q + 1
  toString (rounded / 10) ++ "." ++ toString (rounded % 10)

/-- `png_base64 = base64.b64encode(png_data).decode()`. -/
def pngB64 (png_data : List Nat) : String :=
  String.mk (b64encode png_data)

/-- The success text of `_render_png`; the grouping isolates the
fenced base64 block. -/
def pngSuccessText (theme scale : PyVal) (png_data : List Nat) : String :=
  ("✅ PNG diagram generated successfully! (" ++ pngSizeKb png_data.length ++
   " KB)\n\n" ++ "Theme: " ++ theme.pystr ++ "\n" ++
   "Scale: " ++ scale.pystr ++ "x\n" ++
   "The PNG can be saved to a file or displayed in applications that support base64 images.\n\n" ++
   "To save this PNG, decode the base64 data below:\n\n") ++
  ("```base64\n" ++ pngB64 png_data ++ "\n```") ++
  ("\n\nOr use this data URL in HTML:\n" ++
   "```html\n<img src=\"data:image/png;base64," ++ pngB64 png_data ++
   "\" alt=\"Mermaid Diagram\">\n```")

/-- The success text of `_validate_mermaid`. -/
def validSuccessText (code : String) : String :=
  "✅ Mermaid syntax is valid!\n\n" ++
  "Detected diagram type: " ++ _detect_diagram_type code ++ "\n" ++
  "The diagram can be rendered successfully.\n\n" ++
  "Code analysis:\n" ++
  "- Lines: " ++ toString (pySplitlines code.data).length ++ "\n" ++
  "- Characters: " ++ toString code.length ++ "\n" ++
  "- Estimated complexity: " ++ _estimate_complexity code

/-- The invalid-syntax text of `_validate_mermaid`, with its four fixed
troubleshooting hints. -/
def invalidText (msg : String) : String :=
  "❌ Mermaid syntax is invalid!\n\n" ++
  "Error: " ++ msg ++ "\n\n" ++
  "Common issues to check:\n" ++
  "- Proper diagram type declaration (graph, sequenceDiagram, etc.)\n" ++
  "- Correct arrow syntax (-->, ->>)\n" ++
  "- Balanced brackets and quotes\n" ++
  "- Valid node and edge definitions"

/-- Calling a Python `str` method on a tool argument: raises
`AttributeError` when the value is not a string. -/
def PyVal.asStr : PyVal → Except PyErr String
  | .vstr s => .ok s
  | .vint _ => .error (.attributeError "int object has no attribute lower")

/-- Response handling of `_render_svg` after `client.post` returns. -/
def svgResult (theme : PyVal) (r : Except PyErr HttpResponse) :
    Except PyErr (List TextContent) :=
  match r with
  | .error e => .error e
  | .ok resp =>
      if resp.status_code = 200 then
        .ok [⟨"text", svgSuccessText theme resp.text⟩]
      else
        match errorMessage resp with
        | .error e => .error e
        | .ok msg => .ok [⟨"text", "❌ Failed to render SVG: " ++ msg⟩]

/-- Response handling of `_render_png` after `client.post` returns. -/
def pngResult (theme scale : PyVal) (r : Except PyErr HttpResponse) :
    Except PyErr (List TextContent) :=
  match r with
  | .error e => .error e
  | .ok resp =>
      if resp.status_code = 200 then
        .ok [⟨"text", pngSuccessText theme scale resp.content⟩]
      else
        match errorMessage resp with
        | .error e => .error e
        | .ok msg => .ok [⟨"text", "❌ Failed to render PNG: " ++ msg⟩]

/-- Response handling of `_validate_mermaid` after `client.post` returns. -/
def validateResult (code : PyVal) (r : Except PyErr HttpResponse) :
    Except PyErr (List TextContent) :=
  match r with
  | .error e => .error e
  | .ok resp =>
      if resp.status_code = 200 then
        match code.asStr with
        | .error e => .error e
        | .ok s => .ok [⟨"text", validSuccessText s⟩]
      else
        match errorMessage resp with
        | .error e => .error e
        | .ok msg => .ok [⟨"text", invalidText msg⟩]

/-- `MermaidMCPServer._render_svg`: extract `code` (KeyError when absent) and
`theme` (default "modern"), issue one POST to `/api/render/svg`, shape the
response.  Second component: the outbound requests issued. -/
def svgRequest (base : String) (args : Args) (code : PyVal) : RenderRequest :=
  ⟨base ++ "/api/render/svg",
   [("code", code), ("theme", (args.get "theme").getD (.vstr "modern"))], 30⟩

def _render_svg (base : String) (args : Args) (oracle : Oracle) :
    Except PyErr (List TextContent) × List RenderRequest :=
  match args.get "code" with
  | none => (.error (.keyError "code"), [])
  | some code =>
      (svgResult ((args.get "theme").getD (.vstr "modern"))
         (oracle (svgRequest base args code)),
       [svgRequest base args code])

/-- `MermaidMCPServer._render_png`: like `_render_svg` with `scale`
(default 2) against `/api/render/png`. -/
def pngRequest (base : String) (args : Args) (code : PyVal) : RenderRequest :=
  ⟨base ++ "/api/render/png",
   [("code", code), ("theme", (args.get "theme").getD (.vstr "modern")),
    ("scale", (args.get "scale").getD (.vint 2))], 30⟩

def _render_png (base : String) (args : Args) (oracle : Oracle) :
    Except PyErr (List TextContent) × List RenderRequest :=
  match args.get "code" with
  | none => (.error (.keyError "code"), [])
  | some code =>
      (pngResult ((args.get "theme").getD (.vstr "modern"))
         ((args.get "scale").getD (.vint 2)) (oracle (pngRequest base args code)),
       [pngRequest base args code])

def validateRequest (base : String) (code : PyVal) : RenderRequest :=
  ⟨base ++ "/api/render/svg", [("code", code), ("theme", .vstr "modern")], 15⟩

/-- `MermaidMCPServer._validate_mermaid`: one POST to `/api/render/svg` with
theme "modern" and a 15-second timeout. -/
def _validate_mermaid (base : String) (args : Args) (oracle : Oracle) :
    Except PyErr (List TextContent) × List RenderRequest :=
  match args.get "code" with
  | none => (.error (.keyError "code"), [])
  | some code =>
      (validateResult code (oracle (validateRequest base code)),
       [validateRequest base code])

/-- The analysis report text of `_suggest_improvements`. -/
def suggestReportText (code : String) (dtype : PyVal) : String :=
  "📊 Mermaid Code Analysis\n\n" ++
  "Diagram Type: " ++ dtype.pystr ++ "\n" ++
  "Complexity: " ++ _estimate_complexity code ++ "\n" ++
  "Lines: " ++ toString (pySplitlines (pyStrip code.data)).length ++ "\n\n" ++
  "💡 Suggestions for improvement:\n" ++
  String.intercalate "\n" (_suggest_list code dtype) ++ "\n\n" ++
  "🎨 Available themes: modern, classic, dark, minimal\n" ++
  "📐 Supported diagram types: flowchart, sequence, class, state, gantt, pie, journey, git"

/-- `MermaidMCPServer._suggest_improvements`: purely local, no HTTP call. -/
def _suggest_improvements (args : Args) : Except PyErr (List TextContent) :=
  match args.get "code" with
  | none => .error (.keyError "code")
  | some code =>
      match code.asStr with
      | .error e => .error e
      | .ok s =>
          .ok [⟨"text",
            suggestReportText s (resolveDtype s (args.get "diagram_type"))⟩]

/-- The body of `handle_call_tool`'s `try` block: route by tool name; an
unknown name raises `ValueError`. -/
def dispatchResult (base name : String) (args : Args) (oracle : Oracle) :
    Except PyErr (List TextContent) × List RenderRequest :=
  if name = "render_mermaid_svg" then _render_svg base args oracle
  else if name = "render_mermaid_png" then _render_png base args oracle
  else if name = "validate_mermaid" then _validate_mermaid base args oracle
  else if name = "suggest_mermaid_improvements" then (_suggest_improvements args, [])
  else (.error (.valueError ("Unknown tool: " ++ name)), [])

/-- `handle_call_tool`: the `try/except Exception` boundary converting any
raised failure into a single `"Error: "`-prefixed text block. -/
def handle_call_tool (base name : String) (args : Args) (oracle : Oracle) :
    List TextContent × List RenderRequest :=
  match dispatchResult base name args oracle with
  | (.ok blocks, reqs) => (blocks, reqs)
  | (.error e, reqs) => ([⟨"text", "Error: " ++ e.message⟩], reqs)

/-! ## Supporting lemmas -/

theorem listStartsWith_same : ∀ p t : List Char, listStartsWith (p ++ t) p = true := by
  intro p
  induction p with
  | nil => intro t; cases t <;> rfl
  | cons c cs ih =>
      intro t
      simp [listStartsWith, ih t]

theorem pyIn_parts : ∀ s n t : List Char, pyIn n (s ++ n ++ t) = true := by
  intro s
  induction s with
  | nil =>
      intro n t
      have e : ([] : List Char) ++ n ++ t = n ++ t := by simp
      rw [e]
      rcases h : n ++ t with _ | ⟨c, rest⟩
      · rcases List.append_eq_nil.mp h with ⟨hn, ht⟩
        subst hn
        subst ht
        rfl
      · rw [pyIn, ← h, listStartsWith_same, Bool.true_or]
  | cons c cs ih =>
      intro n t
      have e : (c :: cs) ++ n ++ t = c :: (cs ++ n ++ t) := by simp
      rw [e, pyIn, ih n t, Bool.or_true]

/-- `svgResult` success values are single text blocks. -/
theorem svgResult_ok_shape (t : PyVal) (r : Except PyErr HttpResponse)
    (blocks : List TextContent) (h : svgResult t r = .ok blocks) :
    ∃ u, blocks = [⟨"text", u⟩] := by
  rcases r with e | resp
  · simp [svgResult] at h
  · simp only [svgResult] at h
    by_cases h200 : resp.status_code = 200
    · rw [if_pos h200] at h
      cases h
      exact ⟨_, rfl⟩
    · rw [if_neg h200] at h
      rcases hm : errorMessage resp with e | msg <;> rw [hm] at h
      · cases h
      · cases h
        exact ⟨_, rfl⟩

/-- `pngResult` success values are single text blocks. -/
theorem pngResult_ok_shape (t s : PyVal) (r : Except PyErr HttpResponse)
    (blocks : List TextContent) (h : pngResult t s r = .ok blocks) :
    ∃ u, blocks = [⟨"text", u⟩] := by
  rcases r with e | resp
  · simp [pngResult] at h
  · simp only [pngResult] at h
    by_cases h200 : resp.status_code = 200
    · rw [if_pos h200] at h
      cases h
      exact ⟨_, rfl⟩
    · rw [if_neg h200] at h
      rcases hm : errorMessage resp with e | msg <;> rw [hm] at h
      · cases h
      · cases h
        exact ⟨_, rfl⟩

/-- `validateResult` success values are single text blocks. -/
theorem validateResult_ok_shape (c : PyVal) (r : Except PyErr HttpResponse)
    (blocks : List TextContent) (h : validateResult c r = .ok blocks) :
    ∃ u, blocks = [⟨"text", u⟩] := by
  rcases r with e | resp
  · simp [validateResult] at h
  · simp only [validateResult] at h
    by_cases h200 : resp.status_code = 200
    · rw [if_pos h200] at h
      rcases hs : c.asStr with e | s <;> rw [hs] at h
      · cases h
      · cases h
        exact ⟨_, rfl⟩
    · rw [if_neg h200] at h
      rcases hm : errorMessage resp with e | msg <;> rw [hm] at h
      · cases h
      · cases h
        exact ⟨_, rfl⟩

/-- `_suggest_improvements` success values are single text blocks. -/
theorem suggest_ok_shape (args : Args) (blocks : List TextContent)
    (h : _suggest_improvements args = .ok blocks) :
    ∃ u, blocks = [⟨"text", u⟩] := by
  unfold _suggest_improvements at h
  split at h
  · cases h
  · split at h
    · cases h
    · cases h
      exact ⟨_, rfl⟩

/-- Every successful dispatch carries exactly one text block. -/
theorem dispatch_ok_shape (base name : String) (args : Args) (oracle : Oracle)
    (blocks : List TextContent) (reqs : List RenderRequest)
    (h : dispatchResult base name args oracle = (.ok blocks, reqs)) :
    ∃ u, blocks = [⟨"text", u⟩] := by
  unfold dispatchResult at h
  repeat' split at h
  · simp only [_render_svg] at h
    split at h
    · cases h
    · rw [Prod.mk.injEq] at h
      exact svgResult_ok_shape _ _ _ h.1
  · simp only [_render_png] at h
    split at h
    · cases h
    · rw [Prod.mk.injEq] at h
      exact pngResult_ok_shape _ _ _ _ h.1
  · simp only [_validate_mermaid] at h
    split at h
    · cases h
    · rw [Prod.mk.injEq] at h
      exact validateResult_ok_shape _ _ _ h.1
  · rw [Prod.mk.injEq] at h
    exact suggest_ok_shape _ _ h.1
  · cases h

/-! ## Claim theorems over the dispatcher and render client -/

/-- C1: for every tool name, argument mapping and transport behaviour,
dispatch returns exactly one text content block, and whenever the routed
handler raises, the block's text is `"Error: "` followed by the failure's
message; no exception escapes `handle_call_tool`. -/
theorem dispatch_single_block_error_boundary (base name : String) (args : Args)
    (oracle : Oracle) :
    (handle_call_tool base name args oracle).1.length = 1 ∧
    (∀ tc ∈ (handle_call_tool base name args oracle).1, tc.kind = "text") ∧
    (∀ e : PyErr, (dispatchResult base name args oracle).1 = .error e →
      (handle_call_tool base name args oracle).1 =
        [⟨"text", "Error: " ++ e.message⟩]) := by
  have hshape : ∃ u, (handle_call_tool base name args oracle).1 = [⟨"text", u⟩] := by
    unfold handle_call_tool
    rcases h : dispatchResult base name args oracle with ⟨r, reqs⟩
    rcases r with e | blocks
    · exact ⟨_, rfl⟩
    · simpa using dispatch_ok_shape base name args oracle blocks reqs h
  obtain ⟨u, hu⟩ := hshape
  refine ⟨by rw [hu]; rfl, ?_, ?_⟩
  · intro tc htc
    rw [hu] at htc
    simp only [List.mem_singleton] at htc
    rw [htc]
  · intro e he
    unfold handle_call_tool
    rcases h : dispatchResult base name args oracle with ⟨r, reqs⟩
    rw [h] at he
    rcases r with e' | blocks
    · cases he
      rfl
    · cases he

/-- Witness for C1: an unknown tool name with a dead transport still yields
the single error block. -/
theorem dispatch_single_block_error_boundary_witness :
    (handle_call_tool "http://localhost:5000" "mystery_tool" []
        (fun _ => .error (.httpError "down"))).1.length = 1 ∧
    (handle_call_tool "http://localhost:5000" "mystery_tool" []
        (fun _ => .error (.httpError "down"))).1 =
      [⟨"text", "Error: Unknown tool: mystery_tool"⟩] :=
  ⟨(dispatch_single_block_error_boundary "http://localhost:5000" "mystery_tool"
      [] (fun _ => .error (.httpError "down"))).1,
   (dispatch_single_block_error_boundary "http://localhost:5000" "mystery_tool"
      [] (fun _ => .error (.httpError "down"))).2.2
     (.valueError "Unknown tool: mystery_tool") rfl⟩

/-- C2 counterexample: the claim says the Render Client itself catches
transport faults and converts them to a Failure outcome; in the code there
is no try/except inside `_render_svg`/`_render_png`, so the raised
transport fault leaves the Render Client uncaught (`Except.error` is the
raised exception escaping the handler). -/
theorem render_client_propagates_transport_fault :
    (_render_svg "http://localhost:5000" [("code", .vstr "graph TD")]
        (fun _ => .error (.httpError "Connection refused"))).1 =
      .error (.httpError "Connection refused") ∧
    (_render_png "http://localhost:5000" [("code", .vstr "graph TD")]
        (fun _ => .error (.httpError "Connection refused"))).1 =
      .error (.httpError "Connection refused") := by
  exact ⟨rfl, rfl⟩

/-- C2 amended: a transport fault in renderSvg/renderPng propagates out of
the Render Client and is caught one level up, at the dispatch boundary,
which converts it into the single `"Error: "`-prefixed text block. -/
theorem transport_fault_caught_at_dispatch (base : String) (args : Args)
    (e : PyErr) (c : PyVal) (h : args.get "code" = some c) :
    (_render_svg base args (fun _ => .error e)).1 = .error e ∧
    (_render_png base args (fun _ => .error e)).1 = .error e ∧
    handle_call_tool base "render_mermaid_svg" args (fun _ => .error e) =
      ([⟨"text", "Error: " ++ e.message⟩], [svgRequest base args c]) ∧
    handle_call_tool base "render_mermaid_png" args (fun _ => .error e) =
      ([⟨"text", "Error: " ++ e.message⟩], [pngRequest base args c]) := by
  refine ⟨?_, ?_, ?_, ?_⟩ <;>
    simp [handle_call_tool, dispatchResult, _render_svg, _render_png, h,
      svgResult, pngResult]

/-- Witness for C2's amended theorem at a concrete refused connection. -/
theorem transport_fault_caught_at_dispatch_witness :
    handle_call_tool "http://localhost:5000" "render_mermaid_svg"
        [("code", .vstr "graph TD")]
        (fun _ => .error (.httpError "Connection refused")) =
      ([⟨"text", "Error: Connection refused"⟩],
       [svgRequest "http://localhost:5000" [("code", .vstr "graph TD")]
          (.vstr "graph TD")]) :=
  (transport_fault_caught_at_dispatch "http://localhost:5000"
    [("code", .vstr "graph TD")] (.httpError "Connection refused")
    (.vstr "graph TD") rfl).2.2.1

/-- C7: dispatching render_mermaid_svg without a `code` argument yields the
error-shaped response (here exactly `"Error: 'code'"`, the str of the
KeyError) and performs zero outbound HTTP calls. -/
theorem render_svg_missing_code (base : String) (args : Args) (oracle : Oracle)
    (h : args.get "code" = none) :
    handle_call_tool base "render_mermaid_svg" args oracle =
      ([⟨"text", "Error: 'code'"⟩], []) := by
  simp [handle_call_tool, dispatchResult, _render_svg, h, PyErr.message]

/-- Witness for C7 at a concrete argument mapping lacking `code`. -/
theorem render_svg_missing_code_witness :
    handle_call_tool "http://localhost:5000" "render_mermaid_svg"
        [("theme", .vstr "dark")] (fun _ => .error (.httpError "down")) =
      ([⟨"text", "Error: 'code'"⟩], []) :=
  render_svg_missing_code "http://localhost:5000" [("theme", .vstr "dark")]
    (fun _ => .error (.httpError "down")) rfl

/-- C9: with `code` present, any `theme` and `scale` values — also outside
the declared enum and [1,4] bounds — are forwarded verbatim in the outbound
body, and exactly one request is issued (the call is never rejected for an
out-of-enum or out-of-bounds optional argument). -/
theorem optional_args_forwarded_verbatim (base : String) (args : Args)
    (oracle : Oracle) (c : PyVal) (h : args.get "code" = some c) :
    (_render_svg base args oracle).2 =
      [⟨base ++ "/api/render/svg",
        [("code", c), ("theme", (args.get "theme").getD (.vstr "modern"))], 30⟩] ∧
    (_render_png base args oracle).2 =
      [⟨base ++ "/api/render/png",
        [("code", c), ("theme", (args.get "theme").getD (.vstr "modern")),
         ("scale", (args.get "scale").getD (.vint 2))], 30⟩] := by
  constructor <;> simp [_render_svg, _render_png, h, svgRequest, pngRequest]

/-- Witness for C9: an out-of-enum theme and an out-of-bounds scale are
forwarded untouched. -/
theorem optional_args_forwarded_verbatim_witness :
    (_render_svg "http://localhost:5000"
        [("code", .vstr "x"), ("theme", .vstr "neon"), ("scale", .vint 99)]
        (fun _ => .error (.httpError "down"))).2 =
      [⟨"http://localhost:5000/api/render/svg",
        [("code", .vstr "x"), ("theme", .vstr "neon")], 30⟩] ∧
    (_render_png "http://localhost:5000"
        [("code", .vstr "x"), ("theme", .vstr "neon"), ("scale", .vint 99)]
        (fun _ => .error (.httpError "down"))).2 =
      [⟨"http://localhost:5000/api/render/png",
        [("code", .vstr "x"), ("theme", .vstr "neon"), ("scale", .vint 99)], 30⟩] :=
  optional_args_forwarded_verbatim "http://localhost:5000"
    [("code", .vstr "x"), ("theme", .vstr "neon"), ("scale", .vint 99)]
    (fun _ => .error (.httpError "down")) (.vstr "x") rfl

deriving instance DecidableEq for Except

set_option maxRecDepth 4096

/-- C3 counterexample: a 500 response whose body IS valid JSON with an
`error` field, but served without an application/json content type: the
code uses the raw body text as the message instead of parsing the body and
extracting the field, because it keys on the Content-Type header. -/
theorem error_message_keyed_on_content_type :
    ((_render_svg "http://localhost:5000" [("code", .vstr "graph TD")]
        (fun _ => .ok ⟨500, "text/html",
          .jsonBody (.jobj (.cons "error" (.jstr "boom") .nil))⟩)).1 =
      .ok [⟨"text", "❌ Failed to render SVG: \x7b\"error\": \"boom\"\x7d"⟩]) ∧
    ((_render_svg "http://localhost:5000" [("code", .vstr "graph TD")]
        (fun _ => .ok ⟨500, "text/html",
          .jsonBody (.jobj (.cons "error" (.jstr "boom") .nil))⟩)).1 ≠
      .ok [⟨"text", "❌ Failed to render SVG: boom"⟩]) := by
  constructor
  · rfl
  · decide

/-- C3 amended: on a non-200 response the failure message is chosen by the
Content-Type header, not by attempting to parse the body: if the header
starts with application/json the parsed body's `error` field is used
(default "Unknown error"), otherwise the raw body text is used; the
concrete stub scenario (HTTP 500, application/json, `{"error":"parse
error"}`) does yield the invalid-shaped validate_mermaid response
containing "parse error" and the four troubleshooting hints. -/
theorem error_message_content_type_rules (base : String) (args : Args)
    (c : PyVal) (resp : HttpResponse) (o : Oracle)
    (hc : args.get "code" = some c) (ho : ∀ r, o r = .ok resp)
    (h200 : ¬ resp.status_code = 200) :
    (listStartsWith resp.contentType.data "application/json".data = false →
      (_render_svg base args o).1 =
        .ok [⟨"text", "❌ Failed to render SVG: " ++ resp.text⟩]) ∧
    (∀ fs m, listStartsWith resp.contentType.data "application/json".data = true →
      resp.body = .jsonBody (.jobj fs) →
      JsonFields.lookup fs "error" = some (.jstr m) →
      (_render_svg base args o).1 =
        .ok [⟨"text", "❌ Failed to render SVG: " ++ m⟩]) ∧
    ((handle_call_tool "http://localhost:5000" "validate_mermaid"
        [("code", .vstr "graph TD")]
        (fun _ => .ok ⟨500, "application/json",
          .jsonBody (.jobj (.cons "error" (.jstr "parse error") .nil))⟩)).1 =
      [⟨"text", invalidText "parse error"⟩]) ∧
    strContains "parse error" (invalidText "parse error") = true ∧
    strContains "- Proper diagram type declaration (graph, sequenceDiagram, etc.)"
      (invalidText "parse error") = true ∧
    strContains "- Correct arrow syntax (-->, ->>)"
      (invalidText "parse error") = true ∧
    strContains "- Balanced brackets and quotes"
      (invalidText "parse error") = true ∧
    strContains "- Valid node and edge definitions"
      (invalidText "parse error") = true := by
  refine ⟨?_, ?_, by decide, by decide, by decide, by decide, by decide, by decide⟩
  · intro hct
    simp [_render_svg, hc, ho, svgResult, if_neg h200, errorMessage, hct]
  · intro fs m hct hb hlk
    simp [_render_svg, hc, ho, svgResult, if_neg h200, errorMessage, hct,
      HttpResponse.json, hb, hlk, Json.pyStr]

/-- Witness for C3's amended theorem: both header-keyed branches at concrete
stubs. -/
theorem error_message_content_type_rules_witness :
    ((_render_svg "http://localhost:5000" [("code", .vstr "g")]
        (fun _ => .ok ⟨500, "text/plain", .textBody "oops"⟩)).1 =
      .ok [⟨"text", "❌ Failed to render SVG: oops"⟩]) ∧
    ((_render_svg "http://localhost:5000" [("code", .vstr "g")]
        (fun _ => .ok ⟨500, "application/json",
          .jsonBody (.jobj (.cons "error" (.jstr "bad arrow") .nil))⟩)).1 =
      .ok [⟨"text", "❌ Failed to render SVG: bad arrow"⟩]) :=
  ⟨(error_message_content_type_rules "http://localhost:5000"
      [("code", .vstr "g")] (.vstr "g") ⟨500, "text/plain", .textBody "oops"⟩
      (fun _ => .ok ⟨500, "text/plain", .textBody "oops"⟩) rfl (fun _ => rfl)
      (by decide)).1 (by decide),
   (error_message_content_type_rules "http://localhost:5000"
      [("code", .vstr "g")] (.vstr "g")
      ⟨500, "application/json",
        .jsonBody (.jobj (.cons "error" (.jstr "bad arrow") .nil))⟩
      (fun _ => .ok ⟨500, "application/json",
        .jsonBody (.jobj (.cons "error" (.jstr "bad arrow") .nil))⟩)
      rfl (fun _ => rfl) (by decide)).2.1
     (.cons "error" (.jstr "bad arrow") .nil) "bad arrow"
     (by decide) rfl rfl⟩

/-- C8: on a 200 PNG response of N raw bytes, the response embeds the base64
payload of exactly those bytes in its fenced block, and decoding the
payload reproduces the bytes (round-trip law). -/
theorem png_base64_roundtrip (base : String) (args : Args) (oracle : Oracle)
    (c : PyVal) (bytes : List Nat) (w : String)
    (hc : args.get "code" = some c)
    (ho : ∀ r, oracle r = .ok ⟨200, w, .binaryBody bytes⟩)
    (hb : ∀ b ∈ bytes, b < 256) :
    (_render_png base args oracle).1 =
      .ok [⟨"text", pngSuccessText ((args.get "theme").getD (.vstr "modern"))
                      ((args.get "scale").getD (.vint 2)) bytes⟩] ∧
    (∀ t s : PyVal, strContains ("```base64\n" ++ pngB64 bytes ++ "\n```")
        (pngSuccessText t s bytes) = true) ∧
    b64decode (pngB64 bytes).data = bytes := by
  refine ⟨?_, ?_, b64_roundtrip bytes hb⟩
  · simp [_render_png, hc, pngResult, ho, HttpResponse.content]
  · intro t s
    unfold strContains pngSuccessText
    rw [String.data_append, String.data_append]
    exact pyIn_parts _ _ _

/-- Witness for C8 with the four PNG magic bytes. -/
theorem png_base64_roundtrip_witness :
    b64decode (pngB64 [137, 80, 78, 71]).data = [137, 80, 78, 71] ∧
    strContains ("```base64\n" ++ pngB64 [137, 80, 78, 71] ++ "\n```")
      (pngSuccessText (.vstr "modern") (.vint 2) [137, 80, 78, 71]) = true :=
  ⟨(png_base64_roundtrip "http://localhost:5000" [("code", .vstr "g")]
      (fun _ => .ok ⟨200, "image/png", .binaryBody [137, 80, 78, 71]⟩)
      (.vstr "g") [137, 80, 78, 71] "image/png" rfl (fun _ => rfl)
      (by decide)).2.2,
   (png_base64_roundtrip "http://localhost:5000" [("code", .vstr "g")]
      (fun _ => .ok ⟨200, "image/png", .binaryBody [137, 80, 78, 71]⟩)
      (.vstr "g") [137, 80, 78, 71] "image/png" rfl (fun _ => rfl)
      (by decide)).2.1 (.vstr "modern") (.vint 2)⟩
